import Mathlib

/-!
Verification development for the Shuttlers Playwright UI automation repository.

The repository drives a browser through a login, route search and trip booking
flow via a page object (class ShuttlerSimplePage in pages/shuttler.page.js).
The page object methods are embedded here as data (lists of flow items built
from element descriptors and actions), exactly mirroring the sequence of
Playwright calls in each method body.  The underlying waiting machinery
(locator resolution with strategy fallback, actionability polling, the
assertion gate) is not part of the repository source; it is modelled from the
specification of the generalized core (Locator Resolver, Action Executor,
Interaction Sequencer, Assertion Gate).
-/

namespace Shuttlers

/-- Lower-case a string character by character (used for the case-insensitive
text matches such as the regex pay with with the i flag). -/
def lowerStr (s : String) : String :=
  ⟨s.data.map Char.toLower⟩

/-- Boolean prefix test on character lists. -/
def isPrefixCL : List Char → List Char → Bool
  | [], _ => true
  | _ :: _, [] => false
  | a :: as, b :: bs => a == b && isPrefixCL as bs

/-- Boolean substring test on character lists. -/
def containsCL (pat : List Char) : List Char → Bool
  | [] => isPrefixCL pat []
  | b :: bs => isPrefixCL pat (b :: bs) || containsCL pat bs

/-- String containment: models a regex of the form .*pat.* such as
the URL pattern dashboard used after login. -/
def containsSub (s pat : String) : Bool :=
  containsCL pat.data s.data

/-- A rendered UI element as observed by the automation layer: its semantic
attributes (tag, test id, ARIA role and accessible name, visible text, the
CSS selector strings it matches), its current input value, and its
actionability state (attached, visible, stable, enabled, not overlaid). -/
structure Element where
  tag : String := ""
  testId : Option String := none
  role : Option String := none
  accName : Option String := none
  text : String := ""
  css : List String := []
  value : String := ""
  attached : Bool := true
  visible : Bool := true
  stable : Bool := true
  enabled : Bool := true
  overlaid : Bool := false
deriving DecidableEq, Inhabited

/-- The live document owned by one session: current URL plus the elements in
document order. -/
structure Document where
  url : String := ""
  elements : List Element := []
deriving DecidableEq, Inhabited

/-- Modelled from the spec: ElementDescriptor - a declarative description of
how to find one element, with one optional value per resolution strategy
(test id, role plus accessible name, visible text with exactness flag, CSS
fallback selector list) and an ordinal selector (default first in document
order).  Each Playwright locator call in the source fills exactly one
strategy. -/
structure ElementDescriptor where
  testid : Option String := none
  roleName : Option (String × String) := none
  text : Option (String × Bool) := none
  css : List String := []
  ordinal : Nat := 0
deriving DecidableEq, Inhabited

/-- Exact test-id match (getByTestId in the source). -/
def matchesTestId (v : String) (e : Element) : Bool :=
  e.testId = some v

/-- Semantic role plus accessible-name match (getByRole with a name option in
the source). -/
def matchesRole (r n : String) (e : Element) : Bool :=
  e.role = some r && e.accName = some n

/-- Visible-text match (getByText in the source): exact comparison when the
exact flag is set, otherwise case-insensitive substring containment. -/
def matchesText (v : String) (exact : Bool) (e : Element) : Bool :=
  if exact then e.text = v else containsSub (lowerStr e.text) (lowerStr v)

/-- CSS fallback match: the element matches one of the selector strings in the
fallback list.  Elements record the selector strings they match. -/
def matchesCss (sels : List String) (e : Element) : Bool :=
  sels.any (fun s => e.css.contains s)

/-- Indices (in document order) of the elements satisfying a strategy
predicate. -/
def stratMatches (doc : Document) (p : Element → Bool) : List Nat :=
  (List.range doc.elements.length).filter (fun i => p (doc.elements.getD i default))

/-- Modelled from the spec: one resolution attempt on one observation of the
document.  Strategies are tried in the fixed priority order exact test id,
then role plus label, then visible text, then the CSS fallback list; ties are
resolved by the ordinal selector (default: first in document order). -/
def resolveOnce (doc : Document) (d : ElementDescriptor) : Option Nat :=
  (d.testid.bind (fun v => (stratMatches doc (matchesTestId v)).get? d.ordinal)) <|>
  (d.roleName.bind (fun rn => (stratMatches doc (matchesRole rn.1 rn.2)).get? d.ordinal)) <|>
  (d.text.bind (fun tv => (stratMatches doc (matchesText tv.1 tv.2)).get? d.ordinal)) <|>
  (if d.css.isEmpty then none else (stratMatches doc (matchesCss d.css)).get? d.ordinal)

/-- Modelled from the spec: resolution errors NotFound, Ambiguous, Timeout. -/
inductive ResolutionError
  | notFound
  | ambiguous
  | timeout
deriving DecidableEq

/-- A user action applied to a resolved element: fill a field or click. -/
inductive Action
  | fill (value : String)
  | click
deriving DecidableEq

/-- Modelled from the spec: ActionError with the NotActionable reason. -/
inductive ActionError
  | notActionable (reason : String)
deriving DecidableEq

/-- The external document context provider: loading a URL yields a document,
an action applied to the element at an index mutates the document, and one
poll interval of autonomous browser evolution (async rendering, redirects)
steps the document. -/
structure Browser where
  load : String → Document
  eff : Document → Nat → Action → Document
  tick : Document → Document

/-- The document as observed after k poll intervals of autonomous
evolution. -/
def obsAt (B : Browser) : Nat → Document → Document
  | 0, doc => doc
  | k + 1, doc => obsAt B k (B.tick doc)

/-- Modelled from the spec: the first failing actionability precondition, in
the order attached, visible, stable, enabled, no intercepting overlay. -/
def firstFailingPrecond (e : Element) : Option String :=
  if !e.attached then some "not attached"
  else if !e.visible then some "not visible"
  else if !e.stable then some "not stable"
  else if !e.enabled then some "not enabled"
  else if e.overlaid then some "overlay intercepts" else none

/-- Modelled from the spec: a gate post-condition - a URL pattern match or an
element visibility predicate. -/
inductive Condition
  | urlContains (pat : String)
  | filteredLabelVisible (tag : String) (pat : String)
deriving DecidableEq

/-- Evaluate a gate condition on one observation of the document.
urlContains models a URL regex of the form .*pat.*; filteredLabelVisible
models locator(tag).filter(hasText regex with the i flag).first()
followed by a visibility assertion. -/
def evalCondition (doc : Document) : Condition → Bool
  | .urlContains pat => containsSub doc.url pat
  | .filteredLabelVisible tag pat =>
    match (doc.elements.filter
        (fun e => tag == e.tag && containsSub (lowerStr e.text) pat)).head? with
    | some e => e.visible
    | none => false

/-- Modelled from the spec: GateTimeoutError carrying the condition and the
last observed document. -/
structure GateTimeoutError where
  cond : Condition
  lastObserved : Document
deriving DecidableEq

/-- Modelled from the spec: the Assertion Gate.  Polls the condition at a
fixed interval; succeeds on the first satisfying observation (returning that
observation and the number of polls consumed); fails with GateTimeoutError
carrying the condition and the last observation once the timeout budget is
exhausted. -/
def gateAwait (B : Browser) (c : Condition) : Nat → Document → Except GateTimeoutError (Document × Nat)
  | 0, doc => if evalCondition doc c then .ok (doc, 0) else .error ⟨c, doc⟩
  | fuel + 1, doc =>
    if evalCondition doc c then .ok (doc, 0)
    else (gateAwait B c fuel (B.tick doc)).map (fun p => (p.1, p.2 + 1))

/-- Modelled from the spec: the Action Executor fused with the Locator
Resolver polling, as in the auto-waiting of the automation library: at each
observation the descriptor is re-resolved and the actionability preconditions
are checked; once they hold the action is applied exactly once via the
browser effect; when the budget is exhausted the error reports the failure at
the last observation (resolution timeout, or the first failing actionability
precondition), together with that observation.  On success it returns the
mutated document and the number of polls consumed. -/
def performAct (B : Browser) (d : ElementDescriptor) (a : Action) :
    Nat → Document → Except ((ResolutionError ⊕ ActionError) × Document) (Document × Nat)
  | 0, doc =>
    match resolveOnce doc d with
    | none => .error (.inl .timeout, doc)
    | some i =>
      match firstFailingPrecond (doc.elements.getD i default) with
      | some r => .error (.inr (.notActionable r), doc)
      | none => .ok (B.eff doc i a, 0)
  | fuel + 1, doc =>
    match resolveOnce doc d with
    | none => (performAct B d a fuel (B.tick doc)).map (fun p => (p.1, p.2 + 1))
    | some i =>
      match firstFailingPrecond (doc.elements.getD i default) with
      | some _ => (performAct B d a fuel (B.tick doc)).map (fun p => (p.1, p.2 + 1))
      | none => .ok (B.eff doc i a, 0)

/-- The not-actionable (or not-resolved) reason at the last observation of a
timed-out action wait. -/
def lastObservedReason (B : Browser) (d : ElementDescriptor) (fuel : Nat) (doc : Document) : Option String :=
  match resolveOnce (obsAt B fuel doc) d with
  | none => none
  | some i => firstFailingPrecond ((obsAt B fuel doc).elements.getD i default)

/-- Modelled from the spec: standalone Locator Resolver contract
resolve(session, descriptor, timeout).  Polls the document at a fixed
interval, on each observation trying the strategies in priority order; the
first observation on which some strategy yields an element resolves to that
element (its index and the observation); an exhausted budget yields a
resolution timeout error. -/
def resolve (B : Browser) (d : ElementDescriptor) : Nat → Document → Except ResolutionError (Nat × Document)
  | 0, doc =>
    match resolveOnce doc d with
    | some i => .ok (i, doc)
    | none => .error .timeout
  | fuel + 1, doc =>
    match resolveOnce doc d with
    | some i => .ok (i, doc)
    | none => resolve B d fuel (B.tick doc)

/-- Modelled from the spec: the cause inside a FlowError - a resolution
error, an action error, or a gate timeout. -/
inductive Cause
  | resolution (e : ResolutionError)
  | action (e : ActionError)
  | gateTimeout (e : GateTimeoutError)
deriving DecidableEq

/-- Modelled from the spec: FlowError - the index of the failing step and its
cause. -/
structure FlowError where
  stepIndex : Nat
  cause : Cause
deriving DecidableEq

/-- One item of a flow: a navigation, an action on a described element, or an
assertion gate.  Each statement of a page object method body in the source is
one item. -/
inductive FlowItem
  | nav (url : String)
  | act (d : ElementDescriptor) (a : Action)
  | gate (c : Condition)
deriving DecidableEq

/-- Interpret one flow item on the current document: navigation loads the
URL, an action resolves and acts with auto-waiting, a gate polls its
condition.  Failures carry the last observed document; successes carry the
resulting document and the number of polls consumed. -/
def interpItem (B : Browser) (fuel : Nat) : FlowItem → Document → Except (Cause × Document) (Document × Nat)
  | .nav url, _ => .ok (B.load url, 1)
  | .act d a, doc =>
    (performAct B d a fuel doc).mapError
      (fun p => (match p.1 with | .inl r => Cause.resolution r | .inr r => Cause.action r, p.2))
  | .gate c, doc =>
    (gateAwait B c fuel doc).mapError (fun e => (Cause.gateTimeout e, e.lastObserved))

/-- The begin and end instants of one attempted step: its index in the flow,
the poll tick at which it began, and (for a completed step) the tick at which
it finished and its gate, when it is one, resolved. -/
structure Event where
  idx : Nat
  start : Nat
  finish : Option Nat
deriving DecidableEq

/-- Outcome of running the items of a flow: the success or FlowError result,
the final state of the live document (on failure: the last observation of the
failing step - committed side effects of earlier steps are kept, nothing is
rolled back), and one event per attempted step. -/
structure RunOutcome where
  result : Except FlowError Unit
  finalDoc : Document
  events : List Event

/-- Modelled from the spec: the Interaction Sequencer.  Executes the flow
items in declaration order, each beginning at the instant the previous one
finished; the first failure aborts the remaining items and is wrapped into
FlowError with the index of the failing step; no failed item is retried. -/
def runItemsAux (B : Browser) (fuel : Nat) : List FlowItem → Nat → Nat → Document → RunOutcome
  | [], _, _, doc => ⟨.ok (), doc, []⟩
  | it :: rest, i, clock, doc =>
    match interpItem B fuel it doc with
    | .error p => ⟨.error ⟨i, p.1⟩, p.2, [⟨i, clock, none⟩]⟩
    | .ok p =>
      let o := runItemsAux B fuel rest (i + 1) (clock + p.2) p.1
      ⟨o.result, o.finalDoc, ⟨i, clock, some (clock + p.2)⟩ :: o.events⟩

/-- One live browser page handle, identified by reference. -/
structure Page where
  pid : Nat
deriving DecidableEq

/-- The page object of pages/shuttler.page.js: its constructor stores the
page handle in its only field. -/
structure ShuttlerSimplePage where
  page : Page
deriving DecidableEq

/-- Modelled from the spec: runFlow(session, flow).  Runs the items of the
flow on the document of the session; on success returns the same session
object for chaining (return this in the source) together with the resulting
document; on failure returns the FlowError. -/
def runFlow (B : Browser) (fuel : Nat) (items : List FlowItem) (sp : ShuttlerSimplePage)
    (doc : Document) : Except FlowError (ShuttlerSimplePage × Document) :=
  match (runItemsAux B fuel items 0 0 doc).result with
  | .ok _ => .ok (sp, (runItemsAux B fuel items 0 0 doc).finalDoc)
  | .error e => .error e

/-- Success or failure classification of a flow outcome. -/
def classifyOutcome : Except FlowError (ShuttlerSimplePage × Document) → Bool
  | .ok _ => true
  | .error _ => false

/-- Descriptor of getByRole(textbox, name Email Address) in login. -/
def emailField : ElementDescriptor :=
  { roleName := some ("textbox", "Email Address") }

/-- Descriptor of getByRole(textbox, name Password Login with OTP) in
login. -/
def passwordField : ElementDescriptor :=
  { roleName := some ("textbox", "Password Login with OTP") }

/-- Descriptor of the raw CSS locator for the login button in login. -/
def loginButton : ElementDescriptor :=
  { css := ["[data-test=\"login-button\"]"] }

/-- The URL post-condition of login: expect toHaveURL against the regex
.*dashboard.* . -/
def dashboardGate : Condition := .urlContains "dashboard"

/-- The URL navigated to by the goto method. -/
def loginUrl : String := "https://my.shuttlers.co/auth/login"

/-- Flow of the goto method: navigate to the login page. -/
def gotoItems : List FlowItem := [.nav loginUrl]

/-- Flow of the login method: fill the email textbox, fill the password
textbox, click the login button, then gate on the dashboard URL pattern. -/
def loginItems (email password : String) : List FlowItem :=
  [ .act emailField (.fill email)
  , .act passwordField (.fill password)
  , .act loginButton .click
  , .gate dashboardGate ]

/-- Flow of the searchRoute method: fill the pick up location, click the
exact pickup suggestion, fill the destination, click the exact destination
suggestion, click the calendar icon (the chained locator on tag i with an img
role descendant, recorded as a selector string), click the date, click the
find-trips button (a test id locator). -/
def searchRouteItems (pickup pickupExact destination destinationExact date : String) : List FlowItem :=
  [ .act { roleName := some ("textbox", "Pick up location") } (.fill pickup)
  , .act { text := some (pickupExact, true) } .click
  , .act { roleName := some ("textbox", "Search destination") } (.fill destination)
  , .act { text := some (destinationExact, true) } .click
  , .act { css := ["i >> role=img"] } .click
  , .act { text := some (date, true) } .click
  , .act { testid := some "find-trips-btn" } .click ]

/-- Flow of the bookTrip method: click the trip entry found by non-exact
text, click the Book Trip button, then gate on the visibility of the first
label element whose text matches the case-insensitive regex pay with. -/
def bookTripItems (tripId : String) : List FlowItem :=
  [ .act { text := some (tripId, false) } .click
  , .act { roleName := some ("button", "Book Trip â‚¦") } .click
  , .gate (.filteredLabelVisible "label" "pay with") ]

/-- The goto method of the page object. -/
def ShuttlerSimplePage.goto (B : Browser) (fuel : Nat) (sp : ShuttlerSimplePage)
    (doc : Document) : Except FlowError (ShuttlerSimplePage × Document) :=
  runFlow B fuel gotoItems sp doc

/-- The login method of the page object. -/
def ShuttlerSimplePage.login (B : Browser) (fuel : Nat) (sp : ShuttlerSimplePage)
    (email password : String) (doc : Document) : Except FlowError (ShuttlerSimplePage × Document) :=
  runFlow B fuel (loginItems email password) sp doc

/-- The searchRoute method of the page object. -/
def ShuttlerSimplePage.searchRoute (B : Browser) (fuel : Nat) (sp : ShuttlerSimplePage)
    (pickup pickupExact destination destinationExact date : String) (doc : Document) :
    Except FlowError (ShuttlerSimplePage × Document) :=
  runFlow B fuel (searchRouteItems pickup pickupExact destination destinationExact date) sp doc

/-- The bookTrip method of the page object. -/
def ShuttlerSimplePage.bookTrip (B : Browser) (fuel : Nat) (sp : ShuttlerSimplePage)
    (tripId : String) (doc : Document) : Except FlowError (ShuttlerSimplePage × Document) :=
  runFlow B fuel (bookTripItems tripId) sp doc

/-- One invocation of a page object method, as chained in the test
tests/shuttler.spec.js. -/
inductive Op
  | gotoOp
  | loginOp (email password : String)
  | searchOp (pickup pickupExact destination destinationExact date : String)
  | bookOp (tripId : String)

/-- The flow items of one page object method invocation. -/
def opItems : Op → List FlowItem
  | .gotoOp => gotoItems
  | .loginOp email password => loginItems email password
  | .searchOp p pe dst de date => searchRouteItems p pe dst de date
  | .bookOp tripId => bookTripItems tripId

/-- Run a chained sequence of page object method invocations, as the test
does with then-chaining: each method receives the session object returned by
the previous one, and the first failing method aborts the chain. -/
def runOps (B : Browser) (fuel : Nat) : List Op → ShuttlerSimplePage → Document →
    Except FlowError (ShuttlerSimplePage × Document)
  | [], sp, doc => .ok (sp, doc)
  | op :: rest, sp, doc =>
    match runFlow B fuel (opItems op) sp doc with
    | .error e => .error e
    | .ok r => runOps B fuel rest r.1 r.2

/-- Fixture user.email of tests/testData.js. -/
def userEmail : String := "jamesswagz24@gmail.com"

/-- Fixture user.password of tests/testData.js. -/
def userPassword : String := "TestPassword"

/-- Fixture route.pickup of tests/testData.js. -/
def routePickup : String := "festac"

/-- Fixture route.pickupExact of tests/testData.js. -/
def routePickupExact : String := "Festac Town, Lagos, Nigeria"

/-- Fixture route.destination of tests/testData.js. -/
def routeDestination : String := "Eko"

/-- Fixture route.destinationExact of tests/testData.js. -/
def routeDestinationExact : String := "Eko Hotel Roundabout, Lagos, Nigeria"

/-- Fixture route.date of tests/testData.js. -/
def routeDate : String := "20"

/-- Fixture route.tripId of tests/testData.js. -/
def routeTripId : String := "FST20006:00 AM"

/-- Canonical document mutation of an action: filling stores the value in the
element, clicking by itself changes nothing (navigation triggered by a click
is part of the browser effect of a concrete world). -/
def applyAction (doc : Document) (i : Nat) (a : Action) : Document :=
  match a with
  | .fill v =>
    { doc with elements := doc.elements.set i { (doc.elements.getD i default) with value := v } }
  | .click => doc

/-- Concrete world: the login page document, with the email textbox, the
password textbox and the login button. -/
def loginDoc : Document :=
  { url := "https://my.shuttlers.co/auth/login"
  , elements :=
    [ { tag := "input", role := some "textbox", accName := some "Email Address" }
    , { tag := "input", role := some "textbox", accName := some "Password Login with OTP" }
    , { tag := "button", css := ["[data-test=\"login-button\"]"] } ] }

/-- Concrete world: the dashboard document after a successful login, holding
every element the route search and the booking flow interact with. -/
def dashboardDoc : Document :=
  { url := "https://my.shuttlers.co/dashboard"
  , elements :=
    [ { tag := "input", role := some "textbox", accName := some "Pick up location" }
    , { text := "Festac Town, Lagos, Nigeria" }
    , { tag := "input", role := some "textbox", accName := some "Search destination" }
    , { text := "Eko Hotel Roundabout, Lagos, Nigeria" }
    , { tag := "i", css := ["i >> role=img"] }
    , { text := "20" }
    , { tag := "button", testId := some "find-trips-btn" }
    , { text := "FST20006:00 AM" }
    , { tag := "button", role := some "button", accName := some "Book Trip â‚¦" }
    , { tag := "label", text := "Pay with Wallet" } ] }

/-- Concrete world: the dashboard document after the route search fills. -/
def dashboardDocFilled : Document :=
  { url := "https://my.shuttlers.co/dashboard"
  , elements :=
    [ { tag := "input", role := some "textbox", accName := some "Pick up location", value := "festac" }
    , { text := "Festac Town, Lagos, Nigeria" }
    , { tag := "input", role := some "textbox", accName := some "Search destination", value := "Eko" }
    , { text := "Eko Hotel Roundabout, Lagos, Nigeria" }
    , { tag := "i", css := ["i >> role=img"] }
    , { text := "20" }
    , { tag := "button", testId := some "find-trips-btn" }
    , { text := "FST20006:00 AM" }
    , { tag := "button", role := some "button", accName := some "Book Trip â‚¦" }
    , { tag := "label", text := "Pay with Wallet" } ] }

/-- Concrete world: browser effect in which filling stores the value and
clicking the login button redirects to the dashboard. -/
def happyEff (doc : Document) (i : Nat) (a : Action) : Document :=
  match a with
  | .fill v => applyAction doc i (.fill v)
  | .click =>
    if (doc.elements.getD i default).css.contains "[data-test=\"login-button\"]"
    then dashboardDoc
    else doc

/-- Concrete world: a browser whose only loadable page is the login page,
with the happy effect and no autonomous evolution. -/
def happyB : Browser :=
  { load := fun _ => loginDoc, eff := happyEff, tick := id }

/-- Concrete world: the empty initial document of a fresh session. -/
def emptyDoc : Document := {}

/-- A concrete session object. -/
def spA : ShuttlerSimplePage := ⟨⟨0⟩⟩

/-- A second, distinct concrete session object. -/
def spB : ShuttlerSimplePage := ⟨⟨1⟩⟩

/-- Concrete world: the login page with the login button permanently
disabled, so the click of the login flow times out as not actionable. -/
def blockedDoc : Document :=
  { url := "https://my.shuttlers.co/auth/login"
  , elements :=
    [ { tag := "input", role := some "textbox", accName := some "Email Address" }
    , { tag := "input", role := some "textbox", accName := some "Password Login with OTP" }
    , { tag := "button", css := ["[data-test=\"login-button\"]"], enabled := false } ] }

/-- The blocked login page after the email fill committed. -/
def blockedDoc1 : Document :=
  { url := "https://my.shuttlers.co/auth/login"
  , elements :=
    [ { tag := "input", role := some "textbox", accName := some "Email Address", value := "jamesswagz24@gmail.com" }
    , { tag := "input", role := some "textbox", accName := some "Password Login with OTP" }
    , { tag := "button", css := ["[data-test=\"login-button\"]"], enabled := false } ] }

/-- The blocked login page after both fills committed: the state the document
is left in when the click then fails. -/
def blockedDoc2 : Document :=
  { url := "https://my.shuttlers.co/auth/login"
  , elements :=
    [ { tag := "input", role := some "textbox", accName := some "Email Address", value := "jamesswagz24@gmail.com" }
    , { tag := "input", role := some "textbox", accName := some "Password Login with OTP", value := "TestPassword" }
    , { tag := "button", css := ["[data-test=\"login-button\"]"], enabled := false } ] }

/-- Concrete world: a document with one hidden element carrying a test id,
for the not-actionable timeout scenario. -/
def hiddenDoc : Document :=
  { url := "", elements := [ { tag := "button", testId := some "hidden-el", visible := false } ] }

/-- Descriptor of the hidden element. -/
def hiddenDesc : ElementDescriptor := { testid := some "hidden-el" }

/-- Concrete world for the resolver priority scenario: two elements share the
role button with the accessible name Login and the visible text Login, and a
third element carries the unique test id login-button. -/
def ambiguousDoc : Document :=
  { url := ""
  , elements :=
    [ { tag := "button", role := some "button", accName := some "Login", text := "Login" }
    , { tag := "button", role := some "button", accName := some "Login", text := "Login" }
    , { tag := "button", testId := some "login-button" } ] }

/-- Descriptor specifying a unique test id, plus role and text strategies
that are ambiguous in the ambiguous document. -/
def ambiguousDesc : ElementDescriptor :=
  { testid := some "login-button"
  , roleName := some ("button", "Login")
  , text := some ("Login", true) }

/-- The chained method invocations of the test Shuttler Booking in
tests/shuttler.spec.js, with the fixtures of tests/testData.js. -/
def bookingOps : List Op :=
  [ .gotoOp
  , .loginOp userEmail userPassword
  , .searchOp routePickup routePickupExact routeDestination routeDestinationExact routeDate
  , .bookOp routeTripId ]

lemma gateAwait_ok_eval (B : Browser) (c : Condition) :
    ∀ (fuel : Nat) (doc d : Document) (k : Nat),
    gateAwait B c fuel doc = .ok (d, k) → evalCondition d c = true := by
  intro fuel
  induction fuel with
  | zero =>
    intro doc d k h
    by_cases hc : evalCondition doc c = true
    · simp only [gateAwait, hc, if_true] at h
      cases h
      exact hc
    · simp only [gateAwait, hc, if_false, Bool.false_eq_true] at h
      cases h
  | succ n ih =>
    intro doc d k h
    by_cases hc : evalCondition doc c = true
    · simp only [gateAwait, hc, if_true] at h
      cases h
      exact hc
    · simp only [gateAwait, hc, if_false, Bool.false_eq_true] at h
      cases hg : gateAwait B c n (B.tick doc) with
      | error e => rw [hg] at h; simp [Except.map] at h
      | ok p =>
        rw [hg] at h
        simp only [Except.map, Except.ok.injEq] at h
        have hd : p.1 = d := by
          have := congrArg Prod.fst h
          simpa using this
        rw [← hd]
        exact ih (B.tick doc) p.1 p.2 (by rw [hg])

lemma runFlow_ok_same_session (B : Browser) (fuel : Nat) (items : List FlowItem)
    (sp sp2 : ShuttlerSimplePage) (doc d2 : Document)
    (h : runFlow B fuel items sp doc = .ok (sp2, d2)) : sp2 = sp := by
  unfold runFlow at h
  cases hr : (runItemsAux B fuel items 0 0 doc).result with
  | error e => rw [hr] at h; cases h
  | ok u =>
    rw [hr] at h
    cases h
    rfl

lemma runFlow_ok_final_doc (B : Browser) (fuel : Nat) (items : List FlowItem)
    (sp sp2 : ShuttlerSimplePage) (doc d2 : Document)
    (h : runFlow B fuel items sp doc = .ok (sp2, d2)) :
    d2 = (runItemsAux B fuel items 0 0 doc).finalDoc ∧
    (runItemsAux B fuel items 0 0 doc).result = .ok () := by
  unfold runFlow at h
  cases hr : (runItemsAux B fuel items 0 0 doc).result with
  | error e => rw [hr] at h; cases h
  | ok u =>
    rw [hr] at h
    cases h
    exact ⟨rfl, rfl⟩

lemma runItemsAux_ok_last_gate (B : Browser) (fuel : Nat) (c : Condition) :
    ∀ (pre : List FlowItem) (i clock : Nat) (doc : Document),
    (runItemsAux B fuel (pre ++ [.gate c]) i clock doc).result = .ok () →
    evalCondition (runItemsAux B fuel (pre ++ [.gate c]) i clock doc).finalDoc c = true := by
  intro pre
  induction pre with
  | nil =>
    intro i clock doc h
    simp only [List.nil_append] at h ⊢
    cases hI : interpItem B fuel (.gate c) doc with
    | error p => simp only [runItemsAux, hI] at h; cases h
    | ok p =>
      simp only [runItemsAux, hI]
      cases hg : gateAwait B c fuel doc with
      | error e => simp only [interpItem, hg, Except.mapError] at hI; cases hI
      | ok q =>
        simp only [interpItem, hg, Except.mapError, Except.ok.injEq] at hI
        have : q.1 = p.1 := by rw [hI]
        rw [← this]
        exact gateAwait_ok_eval B c fuel doc q.1 q.2 (by rw [hg])
  | cons it pre ih =>
    intro i clock doc h
    simp only [List.cons_append] at h ⊢
    cases hI : interpItem B fuel it doc with
    | error p => simp only [runItemsAux, hI] at h; cases h
    | ok p =>
      simp only [runItemsAux, hI] at h ⊢
      exact ih (i + 1) (clock + p.2) p.1 h

/-- C1: if the login flow completes successfully, then the assertion gate
after the login click resolved on an observation of the document whose URL
matched the pattern .*dashboard.*; the document returned with the session is
exactly that satisfying observation, taken before login returned. -/
theorem login_gate_requires_dashboard_url
    (B : Browser) (fuel : Nat) (sp sp2 : ShuttlerSimplePage) (email password : String)
    (doc d2 : Document)
    (h : ShuttlerSimplePage.login B fuel sp email password doc = .ok (sp2, d2)) :
    containsSub d2.url "dashboard" = true := by
  obtain ⟨hdoc, hres⟩ := runFlow_ok_final_doc B fuel (loginItems email password) sp sp2 doc d2 h
  have hgate := runItemsAux_ok_last_gate B fuel (Condition.urlContains "dashboard")
    [FlowItem.act emailField (.fill email), .act passwordField (.fill password),
      .act loginButton .click] 0 0 doc hres
  rw [hdoc]
  exact hgate

/-- C1 witness: a concrete successful login run in the happy world; the
returned document is the dashboard observation and its URL matches the
pattern. -/
theorem login_gate_requires_dashboard_url_witness :
    containsSub dashboardDoc.url "dashboard" = true :=
  login_gate_requires_dashboard_url happyB 0 spA spA userEmail userPassword loginDoc
    dashboardDoc (by rfl)

/-- C5: every page object flow step - goto, login, searchRoute, bookTrip -
returns, on success, the very session object it was invoked on (return this
in the source), so steps compose by chaining. -/
theorem flow_steps_return_same_session
    (B : Browser) (fuel : Nat) (sp sp2 : ShuttlerSimplePage) (doc d2 : Document) :
    (ShuttlerSimplePage.goto B fuel sp doc = .ok (sp2, d2) → sp2 = sp) ∧
    (∀ email password,
      ShuttlerSimplePage.login B fuel sp email password doc = .ok (sp2, d2) → sp2 = sp) ∧
    (∀ p pe dst de dt,
      ShuttlerSimplePage.searchRoute B fuel sp p pe dst de dt doc = .ok (sp2, d2) → sp2 = sp) ∧
    (∀ t, ShuttlerSimplePage.bookTrip B fuel sp t doc = .ok (sp2, d2) → sp2 = sp) := by
  refine ⟨fun h => ?_, fun em pw h => ?_, fun p pe dst de dt h => ?_, fun t h => ?_⟩
  · exact runFlow_ok_same_session B fuel gotoItems sp sp2 doc d2 h
  · exact runFlow_ok_same_session B fuel (loginItems em pw) sp sp2 doc d2 h
  · exact runFlow_ok_same_session B fuel (searchRouteItems p pe dst de dt) sp sp2 doc d2 h
  · exact runFlow_ok_same_session B fuel (bookTripItems t) sp sp2 doc d2 h

/-- C5 witness: all four steps run successfully on concrete documents in the
happy world and each returns the session object it was invoked on. -/
theorem flow_steps_return_same_session_witness :
    spA = spA ∧ spA = spA ∧ spA = spA ∧ spA = spA :=
  ⟨(flow_steps_return_same_session happyB 0 spA spA emptyDoc loginDoc).1 (by rfl),
   (flow_steps_return_same_session happyB 0 spA spA loginDoc dashboardDoc).2.1
     userEmail userPassword (by rfl),
   (flow_steps_return_same_session happyB 0 spA spA dashboardDoc dashboardDocFilled).2.2.1
     routePickup routePickupExact routeDestination routeDestinationExact routeDate (by rfl),
   (flow_steps_return_same_session happyB 0 spA spA dashboardDoc dashboardDoc).2.2.2
     routeTripId (by rfl)⟩

/-- C7: the outcome classification of running a flow depends only on the flow
definition, the browser world and the document state: running it against two
freshly created, distinct session objects over the same document state yields
the same success or failure classification. -/
theorem rerun_fresh_session_same_outcome
    (B : Browser) (fuel : Nat) (items : List FlowItem)
    (sp1 sp2 : ShuttlerSimplePage) (doc : Document) :
    classifyOutcome (runFlow B fuel items sp1 doc) =
      classifyOutcome (runFlow B fuel items sp2 doc) := by
  unfold runFlow
  cases hr : (runItemsAux B fuel items 0 0 doc).result <;> rfl

/-- C10: bookTrip returns successfully only if, after the trip entry click
and the booking button click, the gate resolved on an observation in which
the first label element whose text matches the case-insensitive pattern pay
with is visible; the returned document is that observation. -/
theorem bookTrip_requires_pay_with_visible
    (B : Browser) (fuel : Nat) (sp sp2 : ShuttlerSimplePage) (tripId : String)
    (doc d2 : Document)
    (h : ShuttlerSimplePage.bookTrip B fuel sp tripId doc = .ok (sp2, d2)) :
    evalCondition d2 (.filteredLabelVisible "label" "pay with") = true := by
  obtain ⟨hdoc, hres⟩ := runFlow_ok_final_doc B fuel (bookTripItems tripId) sp sp2 doc d2 h
  have hgate := runItemsAux_ok_last_gate B fuel (Condition.filteredLabelVisible "label" "pay with")
    [FlowItem.act { text := some (tripId, false) } .click,
      .act { roleName := some ("button", "Book Trip â‚¦") } .click] 0 0 doc hres
  rw [hdoc]
  exact hgate

/-- C10 witness: a concrete successful bookTrip run in the happy world; the
pay-with label is visible in the returned document. -/
theorem bookTrip_requires_pay_with_visible_witness :
    evalCondition dashboardDoc (.filteredLabelVisible "label" "pay with") = true :=
  bookTrip_requires_pay_with_visible happyB 0 spA spA routeTripId dashboardDoc
    dashboardDoc (by rfl)

lemma performAct_error_static (B : Browser) (d : ElementDescriptor) (a : Action)
    (htick : B.tick = id) :
    ∀ (fuel : Nat) (doc : Document) (q : (ResolutionError ⊕ ActionError) × Document),
    performAct B d a fuel doc = .error q → q.2 = doc := by
  intro fuel
  induction fuel with
  | zero =>
    intro doc q h
    cases hr : resolveOnce doc d with
    | none => simp only [performAct, hr] at h; cases h; rfl
    | some i =>
      cases hf : firstFailingPrecond (doc.elements.getD i default) with
      | none => simp only [performAct, hr, hf] at h; cases h
      | some r => simp only [performAct, hr, hf] at h; cases h; rfl
  | succ n ih =>
    intro doc q h
    cases hr : resolveOnce doc d with
    | none =>
      simp only [performAct, hr] at h
      cases hp : performAct B d a n (B.tick doc) with
      | ok p => rw [hp] at h; simp [Except.map] at h
      | error q2 =>
        rw [hp] at h
        simp only [Except.map] at h
        have hq : q2 = q := Except.error.inj h
        have h2 := ih (B.tick doc) q2 hp
        rw [htick] at h2
        rw [← hq]
        exact h2
    | some i =>
      cases hf : firstFailingPrecond (doc.elements.getD i default) with
      | none => simp only [performAct, hr, hf] at h; cases h
      | some r =>
        simp only [performAct, hr, hf] at h
        cases hp : performAct B d a n (B.tick doc) with
        | ok p => rw [hp] at h; simp [Except.map] at h
        | error q2 =>
          rw [hp] at h
          simp only [Except.map] at h
          have hq : q2 = q := Except.error.inj h
          have h2 := ih (B.tick doc) q2 hp
          rw [htick] at h2
          rw [← hq]
          exact h2

/-- C2: in the login flow fillEmail, fillPassword, clickLogin,
awaitDashboardURL, if the first two steps succeed and the click of the login
button fails with an action error, then the flow surfaces FlowError with
stepIndex 2 and that action error as cause, the attempted steps are exactly
0, 1, 2, and the dashboard-URL gate (step 3) is never attempted. -/
theorem flow_first_failure_aborts_rest
    (B : Browser) (fuel : Nat) (email password : String) (sp : ShuttlerSimplePage)
    (doc d1 d2 dErr : Document) (k1 k2 : Nat) (a : ActionError)
    (h0 : interpItem B fuel (.act emailField (.fill email)) doc = .ok (d1, k1))
    (h1 : interpItem B fuel (.act passwordField (.fill password)) d1 = .ok (d2, k2))
    (h2 : interpItem B fuel (.act loginButton .click) d2 = .error (Cause.action a, dErr)) :
    runFlow B fuel (loginItems email password) sp doc = .error ⟨2, Cause.action a⟩ ∧
    (runItemsAux B fuel (loginItems email password) 0 0 doc).events.map Event.idx = [0, 1, 2] ∧
    3 ∉ (runItemsAux B fuel (loginItems email password) 0 0 doc).events.map Event.idx := by
  have hrun : runItemsAux B fuel (loginItems email password) 0 0 doc =
      ⟨.error ⟨2, Cause.action a⟩, dErr,
        [⟨0, 0, some (0 + k1)⟩, ⟨1, 0 + k1, some (0 + k1 + k2)⟩, ⟨2, 0 + k1 + k2, none⟩]⟩ := by
    simp only [loginItems, runItemsAux, h0, h1, h2]
  have hmap : (runItemsAux B fuel (loginItems email password) 0 0 doc).events.map
      Event.idx = [0, 1, 2] := by
    rw [hrun]
    rfl
  refine ⟨?_, hmap, ?_⟩
  · unfold runFlow
    rw [hrun]
  · rw [hmap]
    decide

/-- C2 witness: in the blocked world the login button is disabled, the click
times out as an action error, the flow fails at step index 2 and the gate is
never attempted. -/
theorem flow_first_failure_aborts_rest_witness :
    runFlow happyB 0 (loginItems userEmail userPassword) spA blockedDoc =
      .error ⟨2, Cause.action (.notActionable "not enabled")⟩ ∧
    (runItemsAux happyB 0 (loginItems userEmail userPassword) 0 0 blockedDoc).events.map
      Event.idx = [0, 1, 2] ∧
    3 ∉ (runItemsAux happyB 0 (loginItems userEmail userPassword) 0 0
      blockedDoc).events.map Event.idx :=
  flow_first_failure_aborts_rest happyB 0 userEmail userPassword spA
    blockedDoc blockedDoc1 blockedDoc2 blockedDoc2 0 0 (.notActionable "not enabled")
    (by rfl) (by rfl) (by rfl)

/-- C8: a failing step is terminal for the flow - the run stops with the
FlowError of that step, the failing step is attempted exactly once and
nothing after it runs - and the partial side effects already committed to the
document by the earlier steps (the email and password fills) are not rolled
back: the final document is the last observation of the failing step, which
in a world with no autonomous evolution is exactly the post-fill document. -/
theorem failure_terminal_no_rollback
    (B : Browser) (fuel : Nat) (email password : String)
    (doc d1 d2 dErr : Document) (k1 k2 : Nat) (c : Cause)
    (h0 : interpItem B fuel (.act emailField (.fill email)) doc = .ok (d1, k1))
    (h1 : interpItem B fuel (.act passwordField (.fill password)) d1 = .ok (d2, k2))
    (h2 : interpItem B fuel (.act loginButton .click) d2 = .error (c, dErr)) :
    runItemsAux B fuel (loginItems email password) 0 0 doc =
      ⟨.error ⟨2, c⟩, dErr,
        [⟨0, 0, some (0 + k1)⟩, ⟨1, 0 + k1, some (0 + k1 + k2)⟩, ⟨2, 0 + k1 + k2, none⟩]⟩ ∧
    (B.tick = id → dErr = d2) := by
  constructor
  · simp only [loginItems, runItemsAux, h0, h1, h2]
  · intro htick
    cases hp : performAct B loginButton .click fuel d2 with
    | ok p => simp only [interpItem, hp, Except.mapError] at h2; cases h2
    | error q =>
      simp only [interpItem, hp, Except.mapError] at h2
      have hq : q.2 = dErr := by
        have := congrArg Prod.snd (Except.error.inj h2)
        simpa using this
      rw [← hq]
      exact performAct_error_static B loginButton .click htick fuel d2 q hp

/-- C8 witness: in the blocked world the failed login flow leaves the
document with the email and password values still filled - the final document
is the post-fill blocked document, nothing was rolled back and nothing after
the failing click was attempted. -/
theorem failure_terminal_no_rollback_witness :
    runItemsAux happyB 0 (loginItems userEmail userPassword) 0 0 blockedDoc =
      ⟨.error ⟨2, Cause.action (.notActionable "not enabled")⟩, blockedDoc2,
        [⟨0, 0, some (0 + 0)⟩, ⟨1, 0 + 0, some (0 + 0 + 0)⟩, ⟨2, 0 + 0 + 0, none⟩]⟩ ∧
    (happyB.tick = id → blockedDoc2 = blockedDoc2) :=
  failure_terminal_no_rollback happyB 0 userEmail userPassword
    blockedDoc blockedDoc1 blockedDoc2 blockedDoc2 0 0
    (Cause.action (.notActionable "not enabled")) (by rfl) (by rfl) (by rfl)

lemma runOps_ok_same_session (B : Browser) (fuel : Nat) :
    ∀ (ops : List Op) (sp sp2 : ShuttlerSimplePage) (doc d2 : Document),
    runOps B fuel ops sp doc = .ok (sp2, d2) → sp2 = sp := by
  intro ops
  induction ops with
  | nil =>
    intro sp sp2 doc d2 h
    unfold runOps at h
    cases h
    rfl
  | cons op rest ih =>
    intro sp sp2 doc d2 h
    unfold runOps at h
    cases hf : runFlow B fuel (opItems op) sp doc with
    | error e => rw [hf] at h; cases h
    | ok r =>
      rw [hf] at h
      have hsp := runFlow_ok_same_session B fuel (opItems op) sp r.1 doc r.2 (by rw [hf])
      have hrest := ih r.1 sp2 r.2 d2 h
      rw [hrest, hsp]

/-- C9: the page object never reassigns its fields: after any chained
sequence of goto, login, searchRoute, bookTrip invocations starting from a
page object constructed over page p, the resulting object is the constructed
object itself - its only field page still holds exactly p. -/
theorem page_field_never_reassigned
    (B : Browser) (fuel : Nat) (ops : List Op) (p : Page)
    (sp2 : ShuttlerSimplePage) (doc d2 : Document)
    (h : runOps B fuel ops ⟨p⟩ doc = .ok (sp2, d2)) :
    sp2 = ShuttlerSimplePage.mk p ∧ sp2.page = p := by
  have := runOps_ok_same_session B fuel ops ⟨p⟩ sp2 doc d2 h
  exact ⟨this, by rw [this]⟩

/-- C9 witness: the full booking chain of the repository test succeeds in the
happy world and the returned page object is the constructed one, its page
field unchanged. -/
theorem page_field_never_reassigned_witness :
    spA = ShuttlerSimplePage.mk ⟨0⟩ ∧ spA.page = ⟨0⟩ :=
  page_field_never_reassigned happyB 0 bookingOps ⟨0⟩ spA emptyDoc
    dashboardDocFilled (by rfl)

lemma runItemsAux_events_head_start (B : Browser) (fuel : Nat) :
    ∀ (items : List FlowItem) (i clock : Nat) (doc : Document) (e : Event),
    (runItemsAux B fuel items i clock doc).events.head? = some e → e.start = clock := by
  intro items
  cases items with
  | nil => intro i clock doc e h; simp [runItemsAux] at h
  | cons it rest =>
    intro i clock doc e h
    cases hI : interpItem B fuel it doc with
    | error p =>
      simp only [runItemsAux, hI, List.head?_cons] at h
      cases h
      rfl
    | ok p =>
      simp only [runItemsAux, hI, List.head?_cons] at h
      cases h
      rfl

/-- C3: flow steps execute strictly sequentially: in the attempt events of a
run, each step finishes - its assertion gate, when the step is a gate,
resolving at that instant - exactly at the instant the next step begins, so
step N+1 never begins before step N has completed. -/
theorem steps_strictly_sequential (B : Browser) (fuel : Nat) :
    ∀ (items : List FlowItem) (i clock : Nat) (doc : Document) (n : Nat) (e e2 : Event),
    (runItemsAux B fuel items i clock doc).events.get? n = some e →
    (runItemsAux B fuel items i clock doc).events.get? (n + 1) = some e2 →
    e.finish = some e2.start := by
  intro items
  induction items with
  | nil =>
    intro i clock doc n e e2 h1 h2
    simp [runItemsAux] at h1
  | cons it rest ih =>
    intro i clock doc n e e2 h1 h2
    cases hI : interpItem B fuel it doc with
    | error p =>
      have hev : (runItemsAux B fuel (it :: rest) i clock doc).events = [⟨i, clock, none⟩] := by
        simp [runItemsAux, hI]
      rw [hev] at h2
      rw [List.get?_cons_succ, List.get?_nil] at h2
      cases h2
    | ok p =>
      have hev : (runItemsAux B fuel (it :: rest) i clock doc).events =
          ⟨i, clock, some (clock + p.2)⟩ ::
            (runItemsAux B fuel rest (i + 1) (clock + p.2) p.1).events := by
        simp [runItemsAux, hI]
      rw [hev] at h1 h2
      cases n with
      | zero =>
        rw [List.get?_cons_zero] at h1
        cases h1
        rw [List.get?_cons_succ] at h2
        cases hevs : (runItemsAux B fuel rest (i + 1) (clock + p.2) p.1).events with
        | nil => rw [hevs, List.get?_nil] at h2; cases h2
        | cons y ys =>
          rw [hevs, List.get?_cons_zero] at h2
          cases h2
          have hs := runItemsAux_events_head_start B fuel rest (i + 1) (clock + p.2) p.1 e2
            (by rw [hevs]; rfl)
          rw [hs]
      | succ m =>
        rw [List.get?_cons_succ] at h1 h2
        exact ih (i + 1) (clock + p.2) p.1 m e e2 h1 h2

/-- C3 witness: in the blocked login run the first step finishes exactly when
the second begins. -/
theorem steps_strictly_sequential_witness :
    (Event.mk 0 0 (some 0)).finish = some (Event.mk 1 0 (some 0)).start :=
  steps_strictly_sequential happyB 0 (loginItems userEmail userPassword) 0 0 blockedDoc
    0 ⟨0, 0, some 0⟩ ⟨1, 0, some 0⟩ (by rfl) (by rfl)

/-- C4: the Locator Resolver tries strategies in the fixed priority order
test id first; hence when the descriptor specifies a test id with exactly one
matching element, resolution returns that element - the one whose test id
matches - on the first observation, regardless of any ambiguous role or text
matches lower in the priority order. -/
theorem resolve_prefers_unique_testid
    (B : Browser) (d : ElementDescriptor) (v : String) (doc : Document) (fuel : Nat)
    (htid : d.testid = some v) (hord : d.ordinal = 0)
    (huniq : (stratMatches doc (matchesTestId v)).length = 1) :
    resolve B d fuel doc = .ok ((stratMatches doc (matchesTestId v)).headD 0, doc) ∧
    matchesTestId v
      (doc.elements.getD ((stratMatches doc (matchesTestId v)).headD 0) default) = true := by
  obtain ⟨i, hi⟩ := List.length_eq_one.mp huniq
  have hro : resolveOnce doc d = some i := by
    unfold resolveOnce
    rw [htid, hord]
    simp only [Option.some_bind]
    rw [hi]
    rfl
  have hres : resolve B d fuel doc = .ok (i, doc) := by
    cases fuel with
    | zero => simp only [resolve, hro]
    | succ n => simp only [resolve, hro]
  have hmem : i ∈ stratMatches doc (matchesTestId v) := by
    rw [hi]; exact List.mem_singleton_self i
  have hp : matchesTestId v (doc.elements.getD i default) = true := by
    simp only [stratMatches, List.mem_filter] at hmem
    exact hmem.2
  rw [hi]
  exact ⟨hres, hp⟩

/-- C4 witness: in the ambiguous document two elements share the role and the
text of the descriptor, yet the unique test id match (the third element) is
the one resolved. -/
theorem resolve_prefers_unique_testid_witness :
    resolve happyB ambiguousDesc 5 ambiguousDoc = .ok (2, ambiguousDoc) ∧
    matchesTestId "login-button" (ambiguousDoc.elements.getD 2 default) = true :=
  resolve_prefers_unique_testid happyB ambiguousDesc "login-button" ambiguousDoc 5
    (by rfl) (by rfl) (by rfl)

/-- C6: an action on an element that never becomes actionable - at every
observation within the budget the element resolves but some actionability
precondition fails - terminates within the configured timeout, returning a
not-actionable action error naming the first failing precondition at the last
observation; the wait never runs forever. -/
theorem blocked_action_times_out_not_actionable
    (B : Browser) (d : ElementDescriptor) (a : Action) :
    ∀ (fuel : Nat) (doc : Document),
    (∀ k, k ≤ fuel → ∃ i, resolveOnce (obsAt B k doc) d = some i ∧
        firstFailingPrecond ((obsAt B k doc).elements.getD i default) ≠ none) →
    performAct B d a fuel doc =
      .error (.inr (.notActionable ((lastObservedReason B d fuel doc).getD "")),
        obsAt B fuel doc) ∧
    lastObservedReason B d fuel doc ≠ none := by
  intro fuel
  induction fuel with
  | zero =>
    intro doc h
    obtain ⟨i, hres, hff⟩ := h 0 (Nat.le_refl 0)
    cases hffv : firstFailingPrecond ((obsAt B 0 doc).elements.getD i default) with
    | none => exact absurd hffv hff
    | some r =>
      have hres0 : resolveOnce doc d = some i := hres
      have hff0 : firstFailingPrecond (doc.elements.getD i default) = some r := hffv
      have hlor : lastObservedReason B d 0 doc = some r := by
        simp only [lastObservedReason, obsAt, hres0, hff0]
      refine ⟨?_, ?_⟩
      · simp only [performAct, hres0, hff0, hlor, obsAt, Option.getD_some]
      · rw [hlor]
        simp
  | succ n ih =>
    intro doc h
    obtain ⟨i, hres, hff⟩ := h 0 (Nat.zero_le _)
    cases hffv : firstFailingPrecond ((obsAt B 0 doc).elements.getD i default) with
    | none => exact absurd hffv hff
    | some r =>
      have hres0 : resolveOnce doc d = some i := hres
      have hff0 : firstFailingPrecond (doc.elements.getD i default) = some r := hffv
      have hrec := ih (B.tick doc) (fun k hk => h (k + 1) (Nat.succ_le_succ hk))
      refine ⟨?_, ?_⟩
      · simp only [performAct, hres0, hff0]
        rw [hrec.1]
        rfl
      · exact hrec.2

/-- C6 witness: clicking the permanently hidden element fails within the
budget with the not-actionable error naming not visible. -/
theorem blocked_action_times_out_not_actionable_witness :
    performAct happyB hiddenDesc .click 0 hiddenDoc =
      .error (.inr (.notActionable "not visible"), hiddenDoc) := by
  have h := blocked_action_times_out_not_actionable happyB hiddenDesc .click 0 hiddenDoc
    (by
      intro k hk
      have hk0 : k = 0 := Nat.le_zero.mp hk
      subst hk0
      exact ⟨0, by decide, by decide⟩)
  exact h.1

end Shuttlers
